import Mathlib

/-!
Verification development for the fincaBack livestock-management REST backend.

Each definition below is a shallow embedding of a function of the Python
source (file and function named in its doc comment).  Dates are modelled as
natural numbers (days), machine integers as `Int`/`Nat`, Python `None` as
`Option.none`, Python exceptions as `Except`/explicit status codes.
-/

namespace FincaBack

/-- Python truthiness for an optional integer: `None` and `0` are falsy. -/
def truthyNat : Option Nat → Bool
  | none => false
  | some n => n != 0

/-- Python truthiness for a string: the empty string is falsy. -/
def truthyStr (s : String) : Bool := s != ""

/-- Python `str.startswith`, over character lists (kernel-reducible). -/
def strStartsWith (s pre : String) : Bool := pre.data.isPrefixOf s.data

/-- Contiguous-sublist test over lists, used to embed Python `in` on strings. -/
def listIsInfix {α} [BEq α] (pat l : List α) : Bool :=
  match l with
  | [] => pat.isEmpty
  | _ :: tl => pat.isPrefixOf l || listIsInfix pat tl

/-- Python `pat in s` substring containment. -/
def strContainsSub (s pat : String) : Bool := listIsInfix pat.data s.data

/-! ## Global JWT pre-request hook
`src/app/__init__.py`, `enforce_jwt_protection` (lines 239-309). -/

/-- The exact `public_paths` set of `enforce_jwt_protection`
    (`src/app/__init__.py` lines 245-294). -/
def publicPaths : List String :=
  [ "/login", "/logout", "/refresh",
    "/api-documentation", "/docs", "/docs/", "/docs/interactive", "/docs/tester",
    "/api/v1/docs/", "/api/v1/docs", "/swaggerui", "/swagger.json",
    "/api/v1/swagger.json",
    "/swaggerui/droid-sans.css", "/swaggerui/swagger-ui.css",
    "/swaggerui/swagger-ui-bundle.js", "/swaggerui/swagger-ui-standalone-preset.js",
    "/swaggerui/favicon-32x32.png", "/swaggerui/favicon-16x16.png",
    "/metrics", "/health", "/api/v1/health",
    "/api/v1/analytics/dashboard", "/api/v1/analytics/alerts",
    "/api/v1/auth/login", "/api/v1/login",
    "/debug-jwt-config", "/debug-jwt-config1", "/debug-config",
    "/debug-cookies", "/debug-time", "/debug-token-detailed", "/debug-complete",
    "/", "/favicon.ico" ]

/-- Claims of a successfully verified JWT: the identity string (`sub`) and the
    optional `role` claim, as read by `get_jwt_identity` / `get_jwt`. -/
structure TokenClaims where
  identity : String
  role : Option String
  deriving Repr, DecidableEq

/-- A minimal HTTP response: a status code and a message body. -/
structure HookResp where
  status : Nat
  msg : String
  deriving Repr, DecidableEq

/-- Embeds `enforce_jwt_protection` (`src/app/__init__.py` 239-309).
`tok = none` models a request on which `verify_jwt_in_request` raises
(missing/invalid/expired token); `tok = some c` models a request carrying a
token that verifies with claims `c`.  Returns `none` when the hook lets the
request through to its handler, `some r` when it short-circuits with `r`. -/
def enforce_jwt_protection (method : String) (path : String)
    (tok : Option TokenClaims) : Option HookResp :=
  if method == "OPTIONS" then none
  else if publicPaths.contains path || strStartsWith path "/static/" then none
  else
    match tok with
    | none => some ⟨401, "Missing or invalid token"⟩
    | some claims =>
      if method == "PUT" || method == "DELETE" then
        -- user_claims = get_jwt() if user_id else {}
        let role := if truthyStr claims.identity then claims.role else none
        if role != some "Administrador" then
          some ⟨403, "Forbidden: Admin role required"⟩
        else none
      else none

/-- Flask dispatch: a `before_request` hook that returns a response
short-circuits the request; otherwise the matched handler runs. -/
def appDispatch (method path : String) (tok : Option TokenClaims)
    (handler : HookResp) : HookResp :=
  match enforce_jwt_protection method path tok with
  | some r => r
  | none => handler

/-- The allow-list exactly as claim C1 words it: `/health`, `/auth/login`,
    documentation paths, static assets.  (Formalisation of the claim text,
    for comparison with the allow-list actually in the code.) -/
def claimC1AllowList (path : String) : Bool :=
  path == "/health" || path == "/auth/login" || path == "/api/v1/auth/login" ||
  path == "/api-documentation" || path == "/docs" || path == "/docs/" ||
  path == "/docs/interactive" || path == "/docs/tester" ||
  path == "/api/v1/docs/" || path == "/api/v1/docs" ||
  path == "/swagger.json" || path == "/api/v1/swagger.json" ||
  path == "/swaggerui" || strStartsWith path "/swaggerui/" ||
  strStartsWith path "/static/"

/-- Claim C1 (as stated) is false: `/metrics` is not on the claim's
allow-list, carries no token, yet the hook lets the request through to its
handler instead of returning 401. -/
theorem metrics_served_without_token_counterexample :
    claimC1AllowList "/metrics" = false ∧
    appDispatch "GET" "/metrics" none ⟨200, "metrics body"⟩ = ⟨200, "metrics body"⟩ := by
  exact ⟨by decide, by decide⟩

/-- Claim C1 (amended): for every non-OPTIONS request whose path is neither in
the application's `public_paths` allow-list nor under `/static/`, a request
carrying no valid JWT is answered 401 and the handler does not run; requests
to allow-listed paths are served without a token. -/
theorem jwt_protection_allowlist
    (method path : String) (handler : HookResp)
    (hm : method ≠ "OPTIONS") :
    (publicPaths.contains path = false → strStartsWith path "/static/" = false →
      appDispatch method path none handler = ⟨401, "Missing or invalid token"⟩)
    ∧ ((publicPaths.contains path || strStartsWith path "/static/") = true →
      appDispatch method path none handler = handler) := by
  constructor
  · intro hp hs
    have hp' : path ∉ publicPaths := by simpa using hp
    unfold appDispatch enforce_jwt_protection
    rw [if_neg (by simp [hm]), if_neg (by simp [hp', hs])]
  · intro hpub
    have hpub' : path ∈ publicPaths ∨ strStartsWith path "/static/" = true := by
      rcases Bool.or_eq_true_iff.mp hpub with h | h
      · exact Or.inl (by simpa using h)
      · exact Or.inr h
    unfold appDispatch enforce_jwt_protection
    by_cases ho : (method == "OPTIONS") = true
    · simp [ho]
    · simp [ho, hpub']

/-- Witness for `jwt_protection_allowlist` at a protected entity path and at
the public `/health` path. -/
theorem jwt_protection_allowlist_witness :
    appDispatch "GET" "/api/v1/animals/" none ⟨200, "list"⟩ = ⟨401, "Missing or invalid token"⟩ ∧
    appDispatch "GET" "/health" none ⟨200, "healthy"⟩ = ⟨200, "healthy"⟩ :=
  ⟨(jwt_protection_allowlist "GET" "/api/v1/animals/" ⟨200, "list"⟩ (by decide)).1
      (by decide) (by decide),
   (jwt_protection_allowlist "GET" "/health" ⟨200, "healthy"⟩ (by decide)).2 (by decide)⟩

/-- Claim C2: a PUT or DELETE on a protected (entity) path with a valid token
whose role claim is not Administrador is answered 403, and the response does
not depend on the handler (the handler is never executed). -/
theorem put_delete_non_admin_forbidden
    (method path : String) (claims : TokenClaims) (handler : HookResp)
    (hm : method = "PUT" ∨ method = "DELETE")
    (hp : publicPaths.contains path = false)
    (hs : strStartsWith path "/static/" = false)
    (hr : claims.role ≠ some "Administrador") :
    appDispatch method path (some claims) handler = ⟨403, "Forbidden: Admin role required"⟩ := by
  unfold appDispatch enforce_jwt_protection
  have hrole : ∀ r : Option String, r ≠ some "Administrador" →
      (r != some "Administrador") = true := by
    intro r h; simpa [bne_iff_ne] using h
  have hp' : path ∉ publicPaths := by simpa using hp
  rcases hm with hm | hm <;> subst hm <;>
    rw [if_neg (by decide), if_neg (by simp [hp', hs])] <;>
    · by_cases hid : truthyStr claims.identity = true
      · simp [hid, hrole _ hr]
      · simp [hid, (by simp [hid] : truthyStr claims.identity = false)]

/-- Witness for `put_delete_non_admin_forbidden`: an Instructor token doing
PUT on the animals endpoint. -/
theorem put_delete_non_admin_forbidden_witness :
    appDispatch "PUT" "/api/v1/animals/5" (some ⟨"2", some "Instructor"⟩) ⟨200, "updated"⟩ =
      ⟨403, "Forbidden: Admin role required"⟩ :=
  put_delete_non_admin_forbidden "PUT" "/api/v1/animals/5" ⟨"2", some "Instructor"⟩
    ⟨200, "updated"⟩ (Or.inl rfl) (by decide) (by decide) (by decide)

/-! ## Auth endpoints
`src/app/namespaces/auth_namespace.py`: `Login.post` (80-143) and
`RefreshToken.post` (171-203). -/

/-- A row of the `user` table (`src/app/models/user.py`). -/
structure UserRow where
  id : Nat
  identification : Nat
  fullname : String
  passwordHash : String
  role : String
  status : Bool
  deriving Repr, DecidableEq

/-- Result of `Login.post`: HTTP status plus which JWT cookies were set on the
response (`set_access_cookies` / `set_refresh_cookies`). -/
structure LoginResp where
  status : Nat
  accessCookieSet : Bool
  refreshCookieSet : Bool
  deriving Repr, DecidableEq

/-- Embeds `Login.post` (`src/app/namespaces/auth_namespace.py` 80-143).
`chk stored given` embeds werkzeug's `check_password_hash`, an external
collaborator, as an abstract parameter.  Python truthiness on the request
fields: identification `0` and the empty password abort with 400. -/
def login_post (chk : String → String → Bool) (users : List UserRow)
    (identification : Nat) (password : String) : LoginResp :=
  if identification == 0 || password == "" then ⟨400, false, false⟩
  else
    match users.find? (fun u => u.identification == identification) with
    | none => ⟨404, false, false⟩
    | some user =>
      if user.status = false then ⟨401, false, false⟩
      else if chk user.passwordHash password = false then ⟨401, false, false⟩
      else ⟨200, true, true⟩

/-- Claim C4 (as stated) is false: a user whose identification exists and whose
password matches, but whose `status` flag is false, gets 401 `Usuario
inactivo`, not 200. -/
theorem login_inactive_user_counterexample :
    ((fun (_ : String) (pw : String) => pw == "secret") "h" "secret" = true) ∧
    (login_post (fun _ pw => pw == "secret")
      [⟨1, 999, "Ana", "h", "Administrador", false⟩] 999 "secret" = ⟨401, false, false⟩) := by
  exact ⟨by decide, by decide⟩

/-- Claim C4 (amended): for a nonzero identification and nonempty password,
login with an existing, *active* user and matching password returns 200 and
sets both cookies; an existing identification with a non-matching password
returns 401; a nonexistent identification returns 404. -/
theorem login_status_cases (chk : String → String → Bool) (users : List UserRow)
    (identification : Nat) (password : String)
    (hid : identification ≠ 0) (hpw : password ≠ "") :
    (∀ u, users.find? (fun u => u.identification == identification) = some u →
        u.status = true → chk u.passwordHash password = true →
        login_post chk users identification password = ⟨200, true, true⟩)
    ∧ (∀ u, users.find? (fun u => u.identification == identification) = some u →
        chk u.passwordHash password = false →
        (login_post chk users identification password).status = 401)
    ∧ (users.find? (fun u => u.identification == identification) = none →
        (login_post chk users identification password).status = 404) := by
  have hguard : (identification == 0 || password == "") = false := by
    simp [hid, hpw]
  refine ⟨?_, ?_, ?_⟩
  · intro u hu hs hc
    unfold login_post
    rw [hguard]
    simp [hu, hs, hc]
  · intro u hu hc
    unfold login_post
    rw [hguard]
    by_cases hs : u.status = false <;> simp [hu, hs, hc]
  · intro hn
    unfold login_post
    rw [hguard]
    simp [hn]

/-- Witness for `login_status_cases`: a two-user store exercising the 200,
401 and 404 branches. -/
theorem login_status_cases_witness :
    login_post (fun h pw => h == pw) [⟨1, 10, "A", "pw1", "Administrador", true⟩] 10 "pw1"
      = ⟨200, true, true⟩ ∧
    (login_post (fun h pw => h == pw) [⟨1, 10, "A", "pw1", "Administrador", true⟩] 10 "bad").status
      = 401 ∧
    (login_post (fun h pw => h == pw) [⟨1, 10, "A", "pw1", "Administrador", true⟩] 77 "pw1").status
      = 404 :=
  ⟨(login_status_cases (fun h pw => h == pw) _ 10 "pw1" (by decide) (by decide)).1
      ⟨1, 10, "A", "pw1", "Administrador", true⟩ (by decide) (by decide) (by decide),
   (login_status_cases (fun h pw => h == pw) _ 10 "bad" (by decide) (by decide)).2.1
      ⟨1, 10, "A", "pw1", "Administrador", true⟩ (by decide) (by decide),
   (login_status_cases (fun h pw => h == pw) _ 77 "pw1" (by decide) (by decide)).2.2 (by decide)⟩

/-- A Python value as far as the refresh handler manipulates it: the JWT
identity is either a string (what `Login.post` stores via
`create_access_token(identity=str(user.id), ...)`) or a dict. -/
inductive PyVal where
  | str (s : String)
  | dict (entries : List (String × String))
  deriving Repr, DecidableEq

/-- Python attribute call `v.get(k)`: defined for dicts, raises
`AttributeError` for strings. -/
def pyGet : PyVal → String → Except String (Option String)
  | PyVal.str _, _ => Except.error "AttributeError: str object has no attribute get"
  | PyVal.dict es, k => Except.ok (es.lookup k)

/-- The identity stored in every token issued by `Login.post`
(`src/app/namespaces/auth_namespace.py` line 105: `user_identity = str(user.id)`). -/
def loginTokenIdentity (userId : Nat) : PyVal := PyVal.str (toString userId)

/-- Result of `RefreshToken.post`: status, and whether a fresh access token
was issued and set as the access cookie. -/
structure RefreshResp where
  status : Nat
  accessCookieSet : Bool
  deriving Repr, DecidableEq

/-- Embeds `RefreshToken.post` (`src/app/namespaces/auth_namespace.py` 171-203),
reached only with a verified refresh token (`@jwt_required(refresh=True)`).
The handler reads `user_identity = get_jwt_identity()` and builds the new
claims from `user_identity.get('id')` etc.; any exception in the `try` block
is answered with a 500 via `auth_ns.abort`. -/
def refresh_post (identity : PyVal) : RefreshResp :=
  match (pyGet identity "id").bind (fun _ => pyGet identity "identification")
      |>.bind (fun _ => pyGet identity "role")
      |>.bind (fun _ => pyGet identity "fullname") with
  | Except.error _ => ⟨500, false⟩
  | Except.ok _ => ⟨200, true⟩

/-- Claim C3 fails on the code: for every token issued by login the identity
is the string `str(user.id)`, and the refresh handler calls `.get` on it,
raising `AttributeError`, so a valid, unexpired refresh token is answered
500 with no new access cookie, not 200. -/
theorem refresh_with_login_token_returns_500 (userId : Nat) :
    refresh_post (loginTokenIdentity userId) = ⟨500, false⟩ := rfl

/-! ## Animals model
`src/app/models/animals.py`: enums (13-32), columns (38-47),
`_validate_instance` (85-118). -/

/-- The `Sex` enum (`src/app/models/animals.py` 13-21). -/
inductive Sex where
  | Hembra
  | Macho
  deriving Repr, DecidableEq

/-- The `AnimalStatus` enum (`src/app/models/animals.py` 23-32). -/
inductive AnimalStatus where
  | Vivo
  | Vendido
  | Muerto
  deriving Repr, DecidableEq

/-- A persisted row of the `animals` table. -/
structure AnimalRow where
  id : Nat
  sex : Sex
  birthDate : Nat
  weight : Int
  record : String
  status : AnimalStatus
  breedsId : Nat
  idFather : Option Nat
  idMother : Option Nat
  deriving Repr, DecidableEq

/-- An in-memory `Animals` ORM instance as `_validate_instance` sees it:
before the flush any column, including the autoincrement `id`, may still be
`None`. -/
structure AnimalInstance where
  id : Option Nat
  sex : Option Sex
  birthDate : Option Nat
  weight : Option Int
  record : Option String
  status : Option AnimalStatus
  breedsId : Option Nat
  idFather : Option Nat
  idMother : Option Nat
  deriving Repr, DecidableEq

/-- Embeds `Animals._validate_instance` (`src/app/models/animals.py` 85-118),
returning the accumulated `errors` list.  `breedIds` and `animals` embed the
`Breeds.query.get` / `Animals.query.get` existence lookups; Python truthiness
guards (`if self.id and ...`) are kept exactly. -/
def Animals.validate_instance (today : Nat) (breedIds : List Nat)
    (animals : List AnimalRow) (a : AnimalInstance) : List String :=
  (match a.weight with
   | some w => if w ≤ 0 then ["El peso debe ser mayor a 0"] else []
   | none => []) ++
  (match a.birthDate with
   | some d => if d > today then ["La fecha de nacimiento no puede ser futura"] else []
   | none => []) ++
  (if truthyNat a.id && (a.idFather == a.id || a.idMother == a.id) then
    ["Un animal no puede ser padre/madre de si mismo"] else []) ++
  (if truthyNat a.idFather && truthyNat a.idMother && a.idFather == a.idMother then
    ["El padre y la madre deben ser animales diferentes"] else []) ++
  (if truthyNat a.breedsId && !(breedIds.contains (a.breedsId.getD 0)) then
    ["La raza especificada no existe"] else []) ++
  (if truthyNat a.idFather && !((animals.map (fun r => r.id)).contains (a.idFather.getD 0)) then
    ["El padre especificado no existe"] else []) ++
  (if truthyNat a.idMother && !((animals.map (fun r => r.id)).contains (a.idMother.getD 0)) then
    ["La madre especificada no existe"] else [])

/-- The creation payload accepted by the animals namespace (`AnimalInput`
model, `src/app/namespaces/animals_namespace.py` 31-40), after enum/date
parsing. -/
structure AnimalInput where
  sex : Sex
  birthDate : Nat
  weight : Int
  record : String
  status : Option AnimalStatus
  breedsId : Nat
  idFather : Option Nat
  idMother : Option Nat
  deriving Repr, DecidableEq

/-- The ORM instance built from a creation payload: `id` is still unassigned
(`None`) when `_validate_instance` runs. -/
def AnimalInput.toInstance (inp : AnimalInput) : AnimalInstance :=
  ⟨none, some inp.sex, some inp.birthDate, some inp.weight, some inp.record,
    inp.status, some inp.breedsId, inp.idFather, inp.idMother⟩

/-- Largest id in use, for the autoincrement primary key. -/
def maxId (animals : List AnimalRow) : Nat :=
  (animals.map (fun r => r.id)).foldr max 0

/-- Modelled from the spec: `BaseModel.create` is not under `src/` (only its
subclasses are); per section 4.1 it "validates required/unique fields then
persists".  For `Animals` the unique field is `record`
(`_unique_fields = ['record']`), instance validation is
`Animals._validate_instance`, and the autoincrement engine assigns a fresh
id.  A `ValidationError` aborts before anything is persisted.
`newRow` is the row the autoincrement engine would persist. -/
def Animals.newRow (animals : List AnimalRow) (inp : AnimalInput) : AnimalRow :=
  ⟨maxId animals + 1, inp.sex, inp.birthDate, inp.weight, inp.record,
    inp.status.getD AnimalStatus.Vivo, inp.breedsId, inp.idFather, inp.idMother⟩

/-- Modelled from the spec (continued): validate-then-persist for `Animals`. -/
def Animals.create (today : Nat) (breedIds : List Nat) (animals : List AnimalRow)
    (inp : AnimalInput) : Except String (List AnimalRow × AnimalRow) :=
  if animals.any (fun r => r.record == inp.record) then
    Except.error "El campo record debe ser unico"
  else if (Animals.validate_instance today breedIds animals inp.toInstance).isEmpty then
    Except.ok (animals ++ [Animals.newRow animals inp], Animals.newRow animals inp)
  else
    Except.error (String.intercalate "; "
      (Animals.validate_instance today breedIds animals inp.toInstance))

/-- Every member of a list of naturals is bounded by the running maximum. -/
theorem mem_le_foldr_max (l : List Nat) (x : Nat) (h : x ∈ l) : x ≤ l.foldr max 0 := by
  induction l with
  | nil => cases h
  | cons a t ih =>
    rcases List.mem_cons.mp h with h | h
    · exact h ▸ le_max_left a (t.foldr max 0)
    · exact le_trans (ih h) (le_max_right a (t.foldr max 0))

/-- Decomposition of a successful `Animals._validate_instance` run: an
empty error list refutes every guarded condition. -/
theorem validate_instance_parts (today : Nat) (breedIds : List Nat)
    (animals : List AnimalRow) (a : AnimalInstance)
    (h : Animals.validate_instance today breedIds animals a = []) :
    ¬(truthyNat a.id = true ∧ (a.idFather = a.id ∨ a.idMother = a.id))
    ∧ ¬(truthyNat a.idFather = true ∧ truthyNat a.idMother = true ∧ a.idFather = a.idMother)
    ∧ (∀ d, a.birthDate = some d → d ≤ today)
    ∧ (truthyNat a.idFather = true → (a.idFather.getD 0) ∈ animals.map (fun r => r.id))
    ∧ (truthyNat a.idMother = true → (a.idMother.getD 0) ∈ animals.map (fun r => r.id)) := by
  unfold Animals.validate_instance at h
  simp only [List.append_eq_nil, and_assoc] at h
  obtain ⟨h1, h2, h3, h4, h5, h6, h7⟩ := h
  refine ⟨?_, ?_, ?_, ?_, ?_⟩
  · intro ⟨hid, hpar⟩
    rw [ite_eq_right_iff] at h3
    apply List.cons_ne_nil _ _ (h3 ?_)
    simp only [Bool.and_eq_true, Bool.or_eq_true, beq_iff_eq]
    exact ⟨hid, hpar⟩
  · intro ⟨hf, hm, heq⟩
    rw [ite_eq_right_iff] at h4
    apply List.cons_ne_nil _ _ (h4 ?_)
    simp only [Bool.and_eq_true, beq_iff_eq]
    exact ⟨⟨hf, hm⟩, heq⟩
  · intro d hd
    rw [hd] at h2
    by_contra hgt
    rw [ite_eq_right_iff] at h2
    exact List.cons_ne_nil _ _ (h2 (by omega))
  · intro hf
    by_contra hmem
    rw [ite_eq_right_iff] at h6
    apply List.cons_ne_nil _ _ (h6 ?_)
    simp only [Bool.and_eq_true, Bool.not_eq_true']
    refine ⟨hf, ?_⟩
    simpa using hmem
  · intro hm
    by_contra hmem
    rw [ite_eq_right_iff] at h7
    apply List.cons_ne_nil _ _ (h7 ?_)
    simp only [Bool.and_eq_true, Bool.not_eq_true']
    refine ⟨hm, ?_⟩
    simpa using hmem
/-- Claim C6: every animal accepted by create or update validation satisfies
idFather ≠ id, idMother ≠ id, idFather ≠ idMother when both are set (as
nonzero FK values), and birth_date ≤ today; violating inputs raise a
validation error and nothing is persisted. -/
theorem animals_accepted_invariants
    (today : Nat) (breedIds : List Nat) (animals : List AnimalRow) :
    (∀ (a : AnimalInstance) (i : Nat),
        Animals.validate_instance today breedIds animals a = [] →
        a.id = some i → i ≠ 0 →
        a.idFather ≠ some i ∧ a.idMother ≠ some i)
    ∧ (∀ a : AnimalInstance,
        Animals.validate_instance today breedIds animals a = [] →
        a.idFather ≠ some 0 → a.idMother ≠ some 0 →
        a.idFather.isSome → a.idMother.isSome → a.idFather ≠ a.idMother)
    ∧ (∀ (a : AnimalInstance) (d : Nat),
        Animals.validate_instance today breedIds animals a = [] →
        a.birthDate = some d → d ≤ today)
    ∧ (∀ (inp : AnimalInput) (st : List AnimalRow × AnimalRow),
        Animals.create today breedIds animals inp = Except.ok st →
        st.2.idFather ≠ some st.2.id ∧ st.2.idMother ≠ some st.2.id ∧
        (st.2.idFather ≠ some 0 → st.2.idMother ≠ some 0 →
          st.2.idFather.isSome → st.2.idMother.isSome →
          st.2.idFather ≠ st.2.idMother) ∧
        st.2.birthDate ≤ today)
    ∧ (∀ inp : AnimalInput,
        Animals.validate_instance today breedIds animals inp.toInstance ≠ [] →
        ∃ msg, Animals.create today breedIds animals inp = Except.error msg) := by
  have truthy_of_ne : ∀ (o : Option Nat) (n : Nat), o = some n → o ≠ some 0 →
      truthyNat o = true := by
    intro o n ho h0
    subst ho
    have : n ≠ 0 := fun hn => h0 (by rw [hn])
    simpa [truthyNat] using this
  have conj2 : ∀ a : AnimalInstance,
      Animals.validate_instance today breedIds animals a = [] →
      a.idFather ≠ some 0 → a.idMother ≠ some 0 →
      a.idFather.isSome → a.idMother.isSome → a.idFather ≠ a.idMother := by
    intro a h hf0 hm0 hfs hms heq
    obtain ⟨-, p2, -, -, -⟩ := validate_instance_parts today breedIds animals a h
    obtain ⟨f, hf⟩ := Option.isSome_iff_exists.mp hfs
    obtain ⟨m, hm⟩ := Option.isSome_iff_exists.mp hms
    exact p2 ⟨truthy_of_ne _ f hf hf0, truthy_of_ne _ m hm hm0, heq⟩
  refine ⟨?_, conj2, ?_, ?_, ?_⟩
  · intro a i h hid hi
    obtain ⟨p1, -, -, -, -⟩ := validate_instance_parts today breedIds animals a h
    have ht : truthyNat a.id = true := by
      rw [hid]; simpa [truthyNat] using hi
    exact ⟨fun hf => p1 ⟨ht, Or.inl (by rw [hf, hid])⟩,
           fun hm => p1 ⟨ht, Or.inr (by rw [hm, hid])⟩⟩
  · intro a d h hd
    exact (validate_instance_parts today breedIds animals a h).2.2.1 d hd
  · intro inp st hok
    unfold Animals.create at hok
    by_cases hrec : animals.any (fun r => r.record == inp.record) = true
    · rw [if_pos hrec] at hok; simp at hok
    · rw [if_neg hrec] at hok
      by_cases hemp :
          (Animals.validate_instance today breedIds animals inp.toInstance).isEmpty = true
      · rw [if_pos hemp] at hok
        have hval : Animals.validate_instance today breedIds animals inp.toInstance = [] := by
          simpa using hemp
        obtain ⟨-, -, p3, p4, p5⟩ := validate_instance_parts today breedIds animals _ hval
        injection hok with hok
        subst hok
        have hfresh : ∀ o : Option Nat,
            (truthyNat o = true → (o.getD 0) ∈ animals.map (fun r => r.id)) →
            o ≠ some (maxId animals + 1) := by
          intro o hpart hcon
          subst hcon
          have : maxId animals + 1 ≤ maxId animals :=
            mem_le_foldr_max _ _ (by simpa [truthyNat] using hpart (by simp [truthyNat]))
          omega
        refine ⟨?_, ?_, ?_, ?_⟩
        · exact hfresh inp.idFather (by simpa [AnimalInput.toInstance] using p4)
        · exact hfresh inp.idMother (by simpa [AnimalInput.toInstance] using p5)
        · intro hf0 hm0 hfs hms
          exact conj2 inp.toInstance hval
            (by simpa [AnimalInput.toInstance] using hf0)
            (by simpa [AnimalInput.toInstance] using hm0)
            (by simpa [AnimalInput.toInstance] using hfs)
            (by simpa [AnimalInput.toInstance] using hms)
        · exact p3 inp.birthDate rfl
      · rw [if_neg hemp] at hok; simp at hok
  · intro inp hne
    unfold Animals.create
    by_cases hrec : animals.any (fun r => r.record == inp.record) = true
    · rw [if_pos hrec]; exact ⟨_, rfl⟩
    · rw [if_neg hrec]
      rw [if_neg (by simpa using hne)]
      exact ⟨_, rfl⟩

/-- Witness for `animals_accepted_invariants`: a concrete accepted update
instance cannot have itself as father. -/
theorem animals_accepted_invariants_witness :
    ((⟨some 5, some Sex.Macho, some 60, some 40, some "A-2", some AnimalStatus.Vivo,
        some 1, some 1, none⟩ : AnimalInstance).idFather ≠ some 5) :=
  ((animals_accepted_invariants 100 [1]
      [⟨1, Sex.Hembra, 50, 30, "A-1", AnimalStatus.Vivo, 1, none, none⟩]).1
    ⟨some 5, some Sex.Macho, some 60, some 40, some "A-2", some AnimalStatus.Vivo,
      some 1, some 1, none⟩ 5 (by decide) rfl (by decide)).1

/-! ## Treatments model
`src/app/models/treatments.py`: columns (16-23), `_validate_instance` (50-75). -/

/-- A persisted row of the `treatments` table. -/
structure TreatmentRow where
  id : Nat
  startDate : Nat
  endDate : Option Nat
  description : String
  frequency : String
  observations : String
  dosis : String
  animalId : Nat
  deriving Repr, DecidableEq

/-- Creation payload for a treatment after the namespace parses the dates
(`src/app/namespaces/medical_namespace.py` 303-322). -/
structure TreatmentInput where
  startDate : Nat
  endDate : Option Nat
  description : String
  frequency : String
  observations : String
  dosis : String
  animalId : Nat
  deriving Repr, DecidableEq

/-- Python `not s or not s.strip()`: true iff the string is empty or
whitespace-only. -/
def blankStr (s : String) : Bool := s.data.all Char.isWhitespace

/-- Embeds `Treatments._validate_instance` (`src/app/models/treatments.py` 50-75)
on an instance built from a creation payload (whose `start_date` is already
a parsed date). -/
def Treatments.validate_instance (today : Nat) (t : TreatmentInput) : List String :=
  (if t.startDate > today then ["La fecha de inicio no puede ser futura"] else []) ++
  (match t.endDate with
   | some e =>
     (if e < t.startDate then ["La fecha de fin no puede ser anterior a la fecha de inicio"] else []) ++
     (if e > today then ["La fecha de fin no puede ser futura"] else [])
   | none => []) ++
  (if blankStr t.description then ["La descripcion no puede estar vacia"] else []) ++
  (if blankStr t.frequency then ["La frecuencia no puede estar vacia"] else []) ++
  (if blankStr t.dosis then ["La dosis no puede estar vacia"] else [])

/-- Largest treatment id in use. -/
def maxTreatmentId (store : List TreatmentRow) : Nat :=
  (store.map (fun r => r.id)).foldr max 0

/-- Modelled from the spec: `BaseModel.create` is not under `src/`; per
section 4.1 it validates then persists.  `Treatments` has no unique fields
(`_unique_fields = []`), so validation is `Treatments._validate_instance`;
a `ValidationError` aborts before anything is persisted. -/
def Treatments.create (today : Nat) (store : List TreatmentRow)
    (t : TreatmentInput) : Except String (List TreatmentRow) :=
  if (Treatments.validate_instance today t).isEmpty then
    Except.ok (store ++ [⟨maxTreatmentId store + 1, t.startDate, t.endDate,
      t.description, t.frequency, t.observations, t.dosis, t.animalId⟩])
  else
    Except.error (String.intercalate "; " (Treatments.validate_instance today t))

/-- Claim C7: a treatment whose end date precedes its start date, or whose
start or end date is in the future, is rejected by creation with a
validation error, and no row is persisted. -/
theorem treatment_bad_dates_rejected (today : Nat) (store : List TreatmentRow)
    (t : TreatmentInput)
    (h : (∃ e, t.endDate = some e ∧ e < t.startDate) ∨ t.startDate > today ∨
         (∃ e, t.endDate = some e ∧ e > today)) :
    ∃ msg, Treatments.create today store t = Except.error msg := by
  have hne : Treatments.validate_instance today t ≠ [] := by
    intro heq
    unfold Treatments.validate_instance at heq
    rcases h with ⟨e, he, hlt⟩ | hfut | ⟨e, he, hgt⟩
    · rw [he] at heq
      dsimp only at heq
      rw [if_pos hlt] at heq
      simp [List.append_eq_nil] at heq
    · rw [if_pos hfut] at heq
      simp [List.append_eq_nil] at heq
    · rw [he] at heq
      dsimp only at heq
      rw [if_pos hgt] at heq
      simp [List.append_eq_nil] at heq
  unfold Treatments.create
  rw [if_neg (by simpa using hne)]
  exact ⟨_, rfl⟩

/-- Witness for `treatment_bad_dates_rejected`: end date 5 before start
date 10. -/
theorem treatment_bad_dates_rejected_witness :
    ∃ msg, Treatments.create 100 []
      ⟨10, some 5, "d", "f", "o", "x", 1⟩ = Except.error msg :=
  treatment_bad_dates_rejected 100 [] ⟨10, some 5, "d", "f", "o", "x", 1⟩
    (Or.inl ⟨5, rfl, by decide⟩)

/-! ## Vaccinations
`src/app/models/vaccinations.py` (columns 18-23, `__table_args__` 32-43 —
indexes only, no unique constraint — and `_validate_instance` 52-57) and the
`POST /medical/vaccinations` handler
(`src/app/namespaces/medical_namespace.py` 854-957). -/

/-- A persisted row of the `vaccinations` table. -/
structure VacRow where
  id : Nat
  animalId : Nat
  vaccineId : Nat
  applicationDate : Nat
  apprenticeId : Option Nat
  instructorId : Nat
  deriving Repr, DecidableEq

/-- Creation payload for a vaccination after date parsing. -/
structure VacInput where
  animalId : Nat
  vaccineId : Nat
  applicationDate : Nat
  apprenticeId : Option Nat
  instructorId : Nat
  deriving Repr, DecidableEq

/-- Embeds `Vaccinations._validate_instance` (`src/app/models/vaccinations.py`
52-57): only the future-date check. -/
def Vaccinations.validate_instance (today : Nat) (v : VacInput) : List String :=
  if v.applicationDate > today then ["La fecha de aplicacion no puede ser futura"] else []

/-- Largest vaccination id in use. -/
def maxVacId (store : List VacRow) : Nat :=
  (store.map (fun r => r.id)).foldr max 0

/-- Modelled from the spec: `BaseModel.create` is not under `src/`; per
section 4.1 it validates required/unique fields then persists.  For
`Vaccinations` every required field is present by construction and no
`_unique_fields` are declared in the model, so only
`Vaccinations._validate_instance` runs before the insert.  The table's
`__table_args__` declare indexes only — no unique constraint over
(animal_id, vaccine_id, application_date) — so the insert itself cannot
raise an `IntegrityError` for a duplicate triple. -/
def Vaccinations.create (today : Nat) (store : List VacRow)
    (v : VacInput) : Except String (List VacRow) :=
  if (Vaccinations.validate_instance today v).isEmpty then
    Except.ok (store ++ [⟨maxVacId store + 1, v.animalId, v.vaccineId,
      v.applicationDate, v.apprenticeId, v.instructorId⟩])
  else
    Except.error (String.intercalate "; " (Vaccinations.validate_instance today v))

/-- Result of the vaccination POST handler: HTTP status and the vaccination
table after the request. -/
structure VacPostResult where
  status : Nat
  store : List VacRow
  deriving Repr, DecidableEq

/-- Embeds `POST /medical/vaccinations` (`src/app/namespaces/medical_namespace.py`
854-957): existence checks on animal, vaccine, instructor and (truthy)
apprentice, the future-date check, then `Vaccinations.create`.  A
`ValidationError` escaping `create` falls to the generic `except Exception`
branch (500); `IntegrityError` would map to 409 but cannot arise for a
duplicate triple (no unique constraint). -/
def create_vaccination (today : Nat) (animalIds vaccineIds userIds : List Nat)
    (store : List VacRow) (v : VacInput) : VacPostResult :=
  if !(animalIds.contains v.animalId) then ⟨404, store⟩
  else if !(vaccineIds.contains v.vaccineId) then ⟨404, store⟩
  else if !(userIds.contains v.instructorId) then ⟨404, store⟩
  else if truthyNat v.apprenticeId && !(userIds.contains (v.apprenticeId.getD 0)) then
    ⟨404, store⟩
  else if v.applicationDate > today then ⟨422, store⟩
  else
    match Vaccinations.create today store v with
    | Except.ok store2 => ⟨201, store2⟩
    | Except.error _ => ⟨500, store⟩

/-- Claim C5 fails on the code: posting a vaccination whose
(animal_id, vaccine_id, application_date) triple already exists returns 201
and persists a second row with the same triple — there is no duplicate
check on this path and no unique constraint, so no 409 is produced. -/
theorem duplicate_vaccination_persisted :
    (create_vaccination 200 [1] [1] [1] [⟨1, 1, 1, 100, none, 1⟩]
        ⟨1, 1, 100, none, 1⟩).status = 201 ∧
    ((create_vaccination 200 [1] [1] [1] [⟨1, 1, 1, 100, none, 1⟩]
        ⟨1, 1, 100, none, 1⟩).store.filter
      (fun r => r.animalId == 1 && r.vaccineId == 1 && r.applicationDate == 100)).length = 2 := by
  exact ⟨by decide, by decide⟩


/-! ## Animals list endpoint
`src/app/namespaces/animals_namespace.py`, `AnimalList.get` (142-214), with
flask-sqlalchemy `Query.paginate(error_out=False)` semantics for the
pagination collaborator (page < 1 clamps to 1, per_page < 1 clamps to the
default 20, `pages = ceil(total / per_page)`, `has_next = page < pages`,
`has_prev = page > 1`). -/

/-- Query-string arguments after Flask type coercion: `page`/`per_page`
carry their defaults (1 and 50) when absent. -/
structure AnimalQueryArgs where
  record : Option String
  breedsId : Option Nat
  sex : Option String
  status : Option String
  minWeight : Option Int
  maxWeight : Option Int
  page : Int
  perPage : Int
  deriving Repr, DecidableEq

/-- The `Sex(sex)` enum coercion: raises `ValueError` (→ 400) off the enum. -/
def parseSex (s : String) : Option Sex :=
  if s == "Hembra" then some Sex.Hembra
  else if s == "Macho" then some Sex.Macho
  else none

/-- The `AnimalStatus(status)` enum coercion. -/
def parseStatus (s : String) : Option AnimalStatus :=
  if s == "Vivo" then some AnimalStatus.Vivo
  else if s == "Vendido" then some AnimalStatus.Vendido
  else if s == "Muerto" then some AnimalStatus.Muerto
  else none

/-- SQL `ILIKE` with wildcards on both sides: case-insensitive substring
containment. -/
def ilike (sub s : String) : Bool :=
  listIsInfix (sub.data.map Char.toLower) (s.data.map Char.toLower)

/-- The `sex` filter block of `AnimalList.get` (lines 169-175). -/
def sexFilterStage (sex : Option String) (l : List AnimalRow) :
    Except Nat (List AnimalRow) :=
  match sex with
  | none => Except.ok l
  | some s =>
    match parseSex s with
    | none => Except.error 400
    | some e => Except.ok (l.filter (fun a => a.sex == e))

/-- The `status` filter block of `AnimalList.get` (lines 177-183). -/
def statusFilterStage (status : Option String) (l : List AnimalRow) :
    Except Nat (List AnimalRow) :=
  match status with
  | none => Except.ok l
  | some s =>
    match parseStatus s with
    | none => Except.error 400
    | some e => Except.ok (l.filter (fun a => a.status == e))

/-- The `sex.value` string of the enum. -/
def sexToStr : Sex → String
  | Sex.Hembra => "Hembra"
  | Sex.Macho => "Macho"

/-- The `status.value` string of the enum. -/
def statusToStr : AnimalStatus → String
  | AnimalStatus.Vivo => "Vivo"
  | AnimalStatus.Vendido => "Vendido"
  | AnimalStatus.Muerto => "Muerto"

/-- Modelled from the spec: `BaseModel.to_json`/`to_dict` (the default
serialization used by `animal.to_json()` on this route) is not under
`src/`; per section 3 it emits the entity's column values, with enums as
their string values. -/
structure AnimalJson where
  id : Nat
  sex : String
  birthDate : Nat
  weight : Int
  record : String
  status : String
  breedsId : Nat
  idFather : Option Nat
  idMother : Option Nat
  deriving Repr, DecidableEq

/-- Serialize one animal row. -/
def animalToJson (a : AnimalRow) : AnimalJson :=
  ⟨a.id, sexToStr a.sex, a.birthDate, a.weight, a.record, statusToStr a.status,
    a.breedsId, a.idFather, a.idMother⟩

/-- The JSON body returned by `AnimalList.get` (lines 206-214). -/
structure AnimalListResp where
  animals : List AnimalJson
  total : Nat
  page : Nat
  perPage : Nat
  pages : Nat
  hasNext : Bool
  hasPrev : Bool
  deriving Repr, DecidableEq

/-- A filter applied only when its query parameter is present
(`if <param>: query = query.filter(...)`). -/
def optFilter {β : Type} (o : Option β) (f : β → AnimalRow → Bool)
    (l : List AnimalRow) : List AnimalRow :=
  match o with
  | some b => l.filter (f b)
  | none => l

/-- flask-sqlalchemy `Query.paginate(page, per_page, error_out=False)`
followed by the response dict of `AnimalList.get` (lines 199-214): `page < 1`
clamps to 1, `per_page < 1` clamps to the default 20,
`pages = ceil(total / per_page)`, `has_next = page < pages`,
`has_prev = page > 1`. -/
def paginateAnimals (l : List AnimalRow) (page perPage : Int) : AnimalListResp :=
  let pg : Nat := (if page < 1 then 1 else page).toNat
  let pp : Nat := (if perPage < 1 then 20 else perPage).toNat
  let total := l.length
  let items := (l.drop ((pg - 1) * pp)).take pp
  let pages := (total + pp - 1) / pp
  ⟨items.map animalToJson, total, pg, pp, pages,
    decide (pg < pages), decide (1 < pg)⟩

/-- Embeds `AnimalList.get` (`src/app/namespaces/animals_namespace.py` 142-214):
the filter chain (record ILIKE, breeds_id, sex, status, min/max weight),
`per_page = min(per_page, 100)`, then `paginate(error_out=False)`. -/
def list_animals (args : AnimalQueryArgs) (store : List AnimalRow) :
    Except Nat AnimalListResp :=
  match sexFilterStage args.sex
      (optFilter args.breedsId (fun b a => a.breedsId == b)
        (optFilter args.record (fun r a => ilike r a.record) store)) with
  | Except.error c => Except.error c
  | Except.ok q3 =>
    match statusFilterStage args.status q3 with
    | Except.error c => Except.error c
    | Except.ok q4 =>
      Except.ok (paginateAnimals
        (optFilter args.maxWeight (fun w a => decide (a.weight ≤ w))
          (optFilter args.minWeight (fun w a => decide (w ≤ a.weight)) q4))
        args.page (min args.perPage 100))

/-- Decidable equality for handler results. -/
instance {ε α : Type} [DecidableEq ε] [DecidableEq α] : DecidableEq (Except ε α) := fun x y =>
  match x, y with
  | Except.error e, Except.error f =>
    if h : e = f then Decidable.isTrue (by rw [h])
    else Decidable.isFalse (by intro hc; injection hc; contradiction)
  | Except.error _, Except.ok _ => Decidable.isFalse (by intro hc; cases hc)
  | Except.ok _, Except.error _ => Decidable.isFalse (by intro hc; cases hc)
  | Except.ok a, Except.ok b =>
    if h : a = b then Decidable.isTrue (by rw [h])
    else Decidable.isFalse (by intro hc; injection hc; contradiction)

/-- Ceiling division: `(t + p - 1) / p` is the least `m` with
`t ≤ m * p`. -/
theorem ceil_div_spec (total pp : Nat) (hpp : 1 ≤ pp) :
    total ≤ ((total + pp - 1) / pp) * pp ∧
    ∀ m, total ≤ m * pp → (total + pp - 1) / pp ≤ m := by
  constructor
  · have h1 : total + pp - 1 < ((total + pp - 1) / pp + 1) * pp :=
      (Nat.div_lt_iff_lt_mul (show 0 < pp by omega)).mp (Nat.lt_succ_self _)
    have h2 : ((total + pp - 1) / pp + 1) * pp = ((total + pp - 1) / pp) * pp + pp := by
      ring
    rw [h2] at h1
    generalize ((total + pp - 1) / pp) * pp = X at h1 ⊢
    omega
  · intro m hm
    rw [Nat.div_le_iff_le_mul_add_pred (show 0 < pp by omega)]
    have h3 : pp * m + (pp - 1) = m * pp + (pp - 1) := by ring
    rw [h3]
    generalize m * pp = X at hm ⊢
    omega

/-- Members of an optionally-filtered list come from the original list. -/
theorem mem_optFilter {β : Type} (o : Option β) (f : β → AnimalRow → Bool)
    (l : List AnimalRow) (a : AnimalRow) (h : a ∈ optFilter o f l) : a ∈ l := by
  cases o with
  | none => exact h
  | some b => exact List.mem_filter.mp h |>.1

/-- A successful status stage only narrows the list. -/
theorem mem_statusFilterStage (status : Option String) (l q : List AnimalRow)
    (h : statusFilterStage status l = Except.ok q) : ∀ a ∈ q, a ∈ l := by
  intro a ha
  cases status with
  | none =>
    simp only [statusFilterStage] at h
    injection h with h
    exact h ▸ ha
  | some st =>
    simp only [statusFilterStage] at h
    cases hp : parseStatus st with
    | none => rw [hp] at h; cases h
    | some e =>
      rw [hp] at h
      injection h with h
      exact List.mem_filter.mp (h ▸ ha) |>.1

/-- Claim C9: with `?sex=Hembra&status=Vivo` every returned animal is a live
female, and in every paginated response `per_page ≥ 1` and `pages` is the
ceiling of `total / per_page` (`total ≤ pages * per_page`, and `pages` is
least such). -/
theorem animals_list_filters_and_pagination (store : List AnimalRow)
    (args : AnimalQueryArgs) (resp : AnimalListResp)
    (hok : list_animals args store = Except.ok resp) :
    (args.sex = some "Hembra" → args.status = some "Vivo" →
      ∀ j ∈ resp.animals, j.sex = "Hembra" ∧ j.status = "Vivo")
    ∧ 1 ≤ resp.perPage
    ∧ resp.total ≤ resp.pages * resp.perPage
    ∧ (∀ m, resp.total ≤ m * resp.perPage → resp.pages ≤ m) := by
  unfold list_animals at hok
  cases h3 : sexFilterStage args.sex
      (optFilter args.breedsId (fun b a => a.breedsId == b)
        (optFilter args.record (fun r a => ilike r a.record) store)) with
  | error c => rw [h3] at hok; cases hok
  | ok q3 =>
    rw [h3] at hok
    dsimp only at hok
    cases h4 : statusFilterStage args.status q3 with
    | error c => rw [h4] at hok; cases hok
    | ok q4 =>
      rw [h4] at hok
      dsimp only at hok
      injection hok with hok
      subst hok
      have hpp : 1 ≤ ((if (min args.perPage 100 : Int) < 1 then 20
          else min args.perPage 100)).toNat := by
        split <;> omega
      refine ⟨?_, hpp, ?_, ?_⟩
      · intro hsex hstat j hj
        simp only [paginateAnimals, List.mem_map] at hj
        obtain ⟨a, ha, rfl⟩ := hj
        have haq6 := List.drop_subset _ _ (List.take_subset _ _ ha)
        have haq4 : a ∈ q4 := mem_optFilter _ _ _ a (mem_optFilter _ _ _ a haq6)
        have haq3 : a ∈ q3 := mem_statusFilterStage args.status q3 q4 h4 a haq4
        constructor
        · rw [hsex] at h3
          simp only [sexFilterStage] at h3
          rw [show parseSex "Hembra" = some Sex.Hembra from by decide] at h3
          injection h3 with h3
          have := (List.mem_filter.mp (h3 ▸ haq3)).2
          have hsx : a.sex = Sex.Hembra := by
            cases hx : a.sex
            · rfl
            · rw [hx] at this; simp_all
          simp [animalToJson, hsx, sexToStr]
        · rw [hstat] at h4
          simp only [statusFilterStage] at h4
          rw [show parseStatus "Vivo" = some AnimalStatus.Vivo from by decide] at h4
          injection h4 with h4
          have := (List.mem_filter.mp (h4 ▸ haq4)).2
          have hst : a.status = AnimalStatus.Vivo := by
            cases hx : a.status <;> rw [hx] at this <;> simp_all
          simp [animalToJson, hst, statusToStr]
      · exact (ceil_div_spec _ _ hpp).1
      · exact (ceil_div_spec _ _ hpp).2

/-- Witness for `animals_list_filters_and_pagination` on a two-animal store:
the one returned animal is the live female. -/
theorem animals_list_filters_and_pagination_witness :
    (animalToJson ⟨1, Sex.Hembra, 50, 300, "A-1", AnimalStatus.Vivo, 1, none, none⟩).sex
      = "Hembra" ∧
    (animalToJson ⟨1, Sex.Hembra, 50, 300, "A-1", AnimalStatus.Vivo, 1, none, none⟩).status
      = "Vivo" :=
  (animals_list_filters_and_pagination
    [⟨1, Sex.Hembra, 50, 300, "A-1", AnimalStatus.Vivo, 1, none, none⟩,
     ⟨2, Sex.Macho, 60, 400, "A-2", AnimalStatus.Muerto, 1, none, none⟩]
    ⟨none, none, some "Hembra", some "Vivo", none, none, 1, 50⟩
    (AnimalListResp.mk
      [animalToJson ⟨1, Sex.Hembra, 50, 300, "A-1", AnimalStatus.Vivo, 1, none, none⟩]
      1 1 50 1 false false)
    (by decide)).1 rfl rfl
    (animalToJson ⟨1, Sex.Hembra, 50, 300, "A-1", AnimalStatus.Vivo, 1, none, none⟩)
    (by decide)

/-! ## In-memory TTL cache
`src/app/utils/cache_manager.py`, class `CacheManager` (12-144):
`get` (38-57), `set` (59-77), `clear_pattern` (90-102). -/

/-- A `(data, created_at, expires_at)` cache entry (`set`, lines 70-74). -/
structure CacheEntry (α : Type) where
  data : α
  createdAt : Nat
  expiresAt : Nat
  deriving Repr, DecidableEq

/-- The `CacheManager` state: the `_cache` dict (insertion-ordered, unique keys)
and the `_cache_stats` counters. -/
structure CacheState (α : Type) where
  entries : List (String × CacheEntry α)
  hits : Nat
  misses : Nat
  sets : Nat
  deletes : Nat
  deriving Repr, DecidableEq

/-- Python `dict[key]` / `key in dict` lookup over the insertion-ordered
pair list. -/
def pyDictLookup {β : Type} : List (String × β) → String → Option β
  | [], _ => none
  | (k1, v1) :: tl, k => if k == k1 then some v1 else pyDictLookup tl k

/-- Python `dict[k] = v`: replace in place when the key exists (dicts keep
unique keys), append otherwise. -/
def pyDictSet {β : Type} (d : List (String × β)) (k : String) (v : β) :
    List (String × β) :=
  if (pyDictLookup d k).isSome then
    d.map (fun p => if p.1 == k then (k, v) else p)
  else d ++ [(k, v)]

/-- Python `del dict[k]` (keys are unique, so dropping every pair with key
`k` is the single-entry delete). -/
def pyDictDel {β : Type} (d : List (String × β)) (k : String) :
    List (String × β) :=
  d.filter (fun p => !(p.1 == k))

/-- Embeds `CacheManager.get` (lines 38-57): unexpired hit returns the data; an
expired entry is deleted and counted as a miss. -/
def CacheManager.get {α : Type} (now : Nat) (st : CacheState α) (key : String) :
    Option α × CacheState α :=
  match pyDictLookup st.entries key with
  | some e =>
    if e.expiresAt > now then
      (some e.data, { st with hits := st.hits + 1 })
    else
      (none, { st with entries := pyDictDel st.entries key, misses := st.misses + 1 })
  | none => (none, { st with misses := st.misses + 1 })

/-- Embeds `CacheManager.set` (lines 59-77): unconditional overwrite with
`expires_at = now + ttl`. -/
def CacheManager.set {α : Type} (now : Nat) (st : CacheState α) (key : String)
    (value : α) (ttl : Nat) : CacheState α :=
  { st with entries := pyDictSet st.entries key ⟨value, now, now + ttl⟩,
            sets := st.sets + 1 }

/-- Embeds `CacheManager.clear_pattern` (lines 90-102): delete every key containing
`pattern` as a substring, return the count. -/
def CacheManager.clear_pattern {α : Type} (st : CacheState α) (pattern : String) :
    Nat × CacheState α :=
  let keysToDelete := (st.entries.map (fun p => p.1)).filter
    (fun key => strContainsSub key pattern)
  let newEntries := keysToDelete.foldl (fun es k => pyDictDel es k) st.entries
  (keysToDelete.length,
   { st with entries := newEntries, deletes := st.deletes + keysToDelete.length })

/-- After a dict write, looking the key up yields the new value. -/
theorem pyDictLookup_set_self {β : Type} (d : List (String × β)) (k : String) (v : β) :
    pyDictLookup (pyDictSet d k v) k = some v := by
  unfold pyDictSet
  by_cases h : (pyDictLookup d k).isSome = true
  · rw [if_pos h]
    induction d with
    | nil => simp [pyDictLookup] at h
    | cons hd tl ih =>
      obtain ⟨k1, v1⟩ := hd
      by_cases hk : (k1 == k) = true
      · rw [List.map_cons]
        rw [show (if (k1, v1).1 == k then (k, v) else (k1, v1)) = (k, v) from by
          simp [hk]]
        simp [pyDictLookup]
      · have hk1 : (k1 == k) = false := by simpa using hk
        have hk2 : (k == k1) = false := by
          rw [beq_eq_false_iff_ne] at hk1 ⊢
          exact fun e => hk1 e.symm
        rw [List.map_cons]
        rw [show (if (k1, v1).1 == k then (k, v) else (k1, v1)) = (k1, v1) from by
          simp [hk1]]
        simp only [pyDictLookup, hk2] at h ⊢
        simp only [Bool.false_eq_true, if_false] at h ⊢
        exact ih h
  · rw [if_neg h]
    induction d with
    | nil => simp [pyDictLookup]
    | cons hd tl ih =>
      obtain ⟨k1, v1⟩ := hd
      by_cases hk : (k == k1) = true
      · exact absurd (by simp [pyDictLookup, hk]) h
      · have hk2 : (k == k1) = false := by simpa using hk
        simp only [List.cons_append, pyDictLookup, hk2] at h ⊢
        simp only [Bool.false_eq_true, if_false] at h ⊢
        exact ih h

/-- After a dict delete, the key is gone. -/
theorem pyDictLookup_del_self {β : Type} (d : List (String × β)) (k : String) :
    pyDictLookup (pyDictDel d k) k = none := by
  unfold pyDictDel
  induction d with
  | nil => rfl
  | cons hd tl ih =>
    obtain ⟨k1, v1⟩ := hd
    by_cases hk : (k1 == k) = true
    · rw [List.filter_cons]
      rw [show (!(k1, v1).1 == k) = false from by simp [hk]]
      simp only [Bool.false_eq_true, if_false]
      exact ih
    · have hk1 : (k1 == k) = false := by simpa using hk
      have hk2 : (k == k1) = false := by
        rw [beq_eq_false_iff_ne] at hk1 ⊢
        exact fun e => hk1 e.symm
      rw [List.filter_cons]
      rw [show (!(k1, v1).1 == k) = true from by simp [hk1]]
      simp only [if_true, pyDictLookup, hk2]
      simp only [Bool.false_eq_true, if_false]
      exact ih

/-- Deleting a list of keys one by one removes exactly the pairs whose key
is among them. -/
theorem foldl_pyDictDel {β : Type} (keys : List String) (d : List (String × β)) :
    keys.foldl (fun es k => pyDictDel es k) d =
      d.filter (fun pr => !(keys.contains pr.1)) := by
  induction keys generalizing d with
  | nil => simp
  | cons k ks ih =>
    simp only [List.foldl]
    rw [ih (pyDictDel d k)]
    unfold pyDictDel
    rw [List.filter_filter]
    apply List.filter_congr
    intro a _
    cases hxk : (a.1 == k) <;> cases hxs : ks.contains a.1 <;>
      simp_all [List.contains_cons, beq_iff_eq]

/-- The `clear_pattern` operation removes exactly the keys containing the pattern and
returns their count. -/
theorem clear_pattern_parts {α : Type} (st : CacheState α) (p : String) :
    (CacheManager.clear_pattern st p).1 =
      (st.entries.filter (fun pr => strContainsSub pr.1 p)).length ∧
    (CacheManager.clear_pattern st p).2.entries =
      st.entries.filter (fun pr => !(strContainsSub pr.1 p)) := by
  unfold CacheManager.clear_pattern
  constructor
  · simp only []
    rw [List.filter_map, List.length_map]
    rfl
  · simp only []
    rw [foldl_pyDictDel]
    apply List.filter_congr
    intro a ha
    have hmem : a.1 ∈ st.entries.map (fun pr => pr.1) := List.mem_map_of_mem _ ha
    by_cases hq : strContainsSub a.1 p = true
    · have hin : a.1 ∈ (st.entries.map (fun pr => pr.1)).filter
          (fun key => strContainsSub key p) := List.mem_filter.mpr ⟨hmem, hq⟩
      have hc : ((st.entries.map (fun pr => pr.1)).filter
          (fun key => strContainsSub key p)).contains a.1 = true := by
        simpa using hin
      rw [hc, hq]
    · have hnin : a.1 ∉ (st.entries.map (fun pr => pr.1)).filter
          (fun key => strContainsSub key p) :=
        fun hmm => hq (List.mem_filter.mp hmm).2
      have hc : ((st.entries.map (fun pr => pr.1)).filter
          (fun key => strContainsSub key p)).contains a.1 = false := by
        simpa using hnin
      rw [hc]
      simp [Bool.not_eq_true] at hq
      rw [hq]

/-- Claim C10: after `set(key, value, ttl)` a `get` strictly before the
expiry instant returns the value, at or after it returns `None` and evicts
the key; `set` on an existing key unconditionally replaces value and expiry;
`clear_pattern(p)` removes exactly the keys containing `p` and returns their
count. -/
theorem cache_get_set_clear_spec {α : Type} (st : CacheState α) (k : String)
    (v : α) (ttl now tq : Nat) (p : String) :
    (tq < now + ttl →
      (CacheManager.get tq (CacheManager.set now st k v ttl) k).1 = some v)
    ∧ (now + ttl ≤ tq →
      (CacheManager.get tq (CacheManager.set now st k v ttl) k).1 = none ∧
      pyDictLookup (CacheManager.get tq (CacheManager.set now st k v ttl) k).2.entries k = none)
    ∧ pyDictLookup (CacheManager.set now st k v ttl).entries k = some ⟨v, now, now + ttl⟩
    ∧ ((CacheManager.clear_pattern st p).1 =
        (st.entries.filter (fun pr => strContainsSub pr.1 p)).length ∧
       (CacheManager.clear_pattern st p).2.entries =
        st.entries.filter (fun pr => !(strContainsSub pr.1 p))) := by
  have hl : pyDictLookup (CacheManager.set now st k v ttl).entries k =
      some ⟨v, now, now + ttl⟩ := pyDictLookup_set_self st.entries k _
  refine ⟨?_, ?_, hl, clear_pattern_parts st p⟩
  · intro ht
    unfold CacheManager.get
    rw [hl]
    dsimp only
    rw [if_pos (by omega : now + ttl > tq)]
  · intro ht
    unfold CacheManager.get
    rw [hl]
    dsimp only
    rw [if_neg (by omega : ¬now + ttl > tq)]
    exact ⟨rfl, pyDictLookup_del_self _ k⟩

/-- Witness for `cache_get_set_clear_spec`: a concrete set/get round trip
before and after expiry. -/
theorem cache_get_set_clear_spec_witness :
    (CacheManager.get 5
      (CacheManager.set 0 (⟨[], 0, 0, 0, 0⟩ : CacheState Nat) "users_list" 42 10)
      "users_list").1 = some 42 ∧
    (CacheManager.get 12
      (CacheManager.set 0 (⟨[], 0, 0, 0, 0⟩ : CacheState Nat) "users_list" 42 10)
      "users_list").1 = none :=
  ⟨(cache_get_set_clear_spec ⟨[], 0, 0, 0, 0⟩ "users_list" 42 10 0 5 "x").1 (by omega),
   ((cache_get_set_clear_spec ⟨[], 0, 0, 0, 0⟩ "users_list" 42 10 0 12 "x").2.1
     (by omega)).1⟩

/-! ## ETag conditional-response decorator
`src/app/utils/etag_cache.py`: `ETagCacheManager` (13-89) and the
`etag_cache` decorator (91-155). -/

/-- The `ETagCacheManager` instance state: the `_table_timestamps` dict.  The
decorator body constructs a *fresh* instance per request
(`cache_manager = ETagCacheManager()`, line 102), so this dict starts empty
on every call. -/
structure EtagMgr where
  tableTimestamps : List (String × Nat)
  deriving Repr, DecidableEq

/-- Embeds `ETagCacheManager.__init__` (lines 19-21). -/
def EtagMgr.fresh : EtagMgr := ⟨[]⟩

/-- Embeds `ETagCacheManager._check_if_modified` (lines 74-89).  `lastModified` is
the value `_get_table_last_modified` computes from the current table state;
returns the decision together with the updated manager. -/
def checkIfModified (m : EtagMgr) (table : String) (clientEtag : Option String)
    (lastModified : Nat) : Bool × EtagMgr :=
  match clientEtag with
  | none => (true, m)
  | some _ =>
    match pyDictLookup m.tableTimestamps table with
    | none => (true, ⟨pyDictSet m.tableTimestamps table lastModified⟩)
    | some cached =>
      if lastModified > cached then (true, ⟨pyDictSet m.tableTimestamps table lastModified⟩)
      else (false, m)

/-- Embeds `ETagCacheManager._generate_etag` (lines 58-72): an md5 over the table
name, its last-modified value and the body hash, modelled as an injective
string encoding (hashing is an external collaborator). -/
def generateEtag (data : String) (table : String) (lastModified : Nat) : String :=
  table ++ "|" ++ toString lastModified ++ "|" ++ data

/-- An HTTP response as the decorator produces it. -/
structure EtagResp where
  status : Nat
  body : String
  etag : Option String
  deriving Repr, DecidableEq

/-- The `etag_cache` decorator wrapper (lines 99-154): builds a fresh
`ETagCacheManager`, consults `_check_if_modified` with the client's
`If-None-Match` value, and either answers `('', 304)` or runs the wrapped
view and attaches a new ETag. -/
def etag_cache (table : String) (lastModified : Nat) (clientEtag : Option String)
    (handlerBody : String) (handlerStatus : Nat) : EtagResp :=
  let mgr := EtagMgr.fresh
  match checkIfModified mgr table clientEtag lastModified with
  | (false, _) => ⟨304, "", clientEtag⟩
  | (true, _) => ⟨handlerStatus, handlerBody,
      some (generateEtag handlerBody table lastModified)⟩

/-- Claim C8 fails on the code: even when the client replays the ETag of the
previous identical response and no row has changed (same `lastModified`),
the decorator re-runs the handler and returns its full 200 body — never 304 —
because the fresh per-request `ETagCacheManager` has an empty
`_table_timestamps`, which makes `_check_if_modified` return True on every
request. -/
theorem etag_replay_not_304 (table : String) (lastModified : Nat)
    (body : String) :
    etag_cache table lastModified
      (etag_cache table lastModified none body 200).etag body 200 =
      ⟨200, body, some (generateEtag body table lastModified)⟩ := by
  cases (etag_cache table lastModified none body 200).etag <;> rfl

end FincaBack
